import Mathlib

/-!
Shallow embedding of `src/autolysis.py`, a one-shot CSV-analysis pipeline:
load a CSV, derive summary/missing/correlation tables, render up to two
charts, fetch a narrative from a chat-completion endpoint (3 attempts,
fixed 2-unit delay), and assemble a Markdown report.

External libraries (pandas, matplotlib/seaborn, requests, tenacity) appear
through the contracts the script relies on: the tabular data model, the
numeric-column correlation matrix, savefig outcomes as an oracle, per-attempt
HTTP outcomes as an oracle, and the tenacity retry loop made explicit.
-/

/-! ## Tabular data model (the in-memory result of `pd.read_csv`) -/

/-- A cell of the loaded table: a numeric value, a text value, or a
missing entry (NaN/None). -/
inductive Cell where
  | num (q : ℚ)
  | str (s : String)
  | null
deriving DecidableEq, Repr

/-- `true` exactly on missing entries (what `isnull` counts). -/
def Cell.isNull : Cell → Bool
  | Cell.null => true
  | _ => false

/-- `true` on text cells. -/
def Cell.isStr : Cell → Bool
  | Cell.str _ => true
  | _ => false

/-- A named column of the table. -/
structure Column where
  name : String
  values : List Cell
deriving DecidableEq, Repr

/-- pandas dtype inference for a CSV column: a column is numeric-typed
exactly when no cell is text (all-null columns load as float64, hence
numeric). -/
def Column.isNumeric (c : Column) : Bool :=
  c.values.all (fun v => !(Cell.isStr v))

/-- The loaded dataset: an ordered list of named columns. -/
structure DataFrame where
  cols : List Column
deriving DecidableEq, Repr

/-- Row count (`df.shape[0]`); columns are uniform-length by construction
of the CSV loader. -/
def DataFrame.nrows (df : DataFrame) : Nat :=
  ((df.cols.head?).map (fun c => c.values.length)).getD 0

/-- Column count (`df.shape[1]`). -/
def DataFrame.ncols (df : DataFrame) : Nat := df.cols.length

/-- `'name' in df.columns`. -/
def hasCol (df : DataFrame) (n : String) : Bool :=
  df.cols.any (fun c => c.name == n)

/-- `df[name]` for a present column (absent lookup yields an empty
column; call sites guard on `hasCol`). -/
def getCol (df : DataFrame) (n : String) : Column :=
  (df.cols.find? (fun c => c.name == n)).getD ⟨n, []⟩

/-! ## Analyzer (`analyze_data`) -/

/-- A rendered table: column headers plus labeled rows, the shape both
`describe` and the correlation matrix serialize through `to_markdown`. -/
structure Table where
  headers : List String
  rows : List (String × List String)
deriving DecidableEq, Repr

/-- Deterministic pipe-table rendering of a table (the `to_markdown`
serialization of the tabulate library; exact cell padding is a library
internal and not observable by any claim). -/
def Table.to_markdown (t : Table) : String :=
  let header := "| | " ++ String.intercalate (" | ") t.headers ++ " |"
  let sep := "|" ++ String.intercalate ("|") (List.replicate (t.headers.length + 1) ("---")) ++ "|"
  let body := t.rows.map (fun r => "| " ++ r.1 ++ " | " ++ String.intercalate (" | ") r.2 ++ " |")
  String.intercalate ("\n") (header :: sep :: body)

/-- Numeric view of a cell (`NaN` for missing). -/
def Cell.toNum? : Cell → Option ℚ
  | Cell.num q => some q
  | _ => none

/-- Mean of the non-missing numeric entries of a column, rendered;
`"nan"` when no such entry exists. -/
def meanStr (vs : List Cell) : String :=
  let nums := vs.filterMap Cell.toNum?
  if nums.length = 0 then "nan"
  else toString (nums.sum / (nums.length : ℚ))

/-- Per-column summary table (`df.describe(include='all')`): count of
non-missing entries, distinct-text count, and numeric mean per column.
The full statistical-moment internals of pandas are out of scope (spec
section 1); the summary is a deterministic per-column table. -/
def DataFrame.describe (df : DataFrame) : Table :=
  ⟨df.cols.map (fun c => c.name),
   [("count", df.cols.map (fun c => toString (c.values.countP (fun v => !(Cell.isNull v))))),
    ("unique", df.cols.map (fun c =>
      if Column.isNumeric c then "nan"
      else toString ((c.values.filterMap (fun v => match v with
        | Cell.str s => some s
        | _ => none)).dedup.length))),
    ("mean", df.cols.map (fun c =>
      if Column.isNumeric c then meanStr c.values else "nan"))]⟩

/-- `df.isnull().sum()`: one missing-entry count per column, in column
order. -/
def missingCounts (df : DataFrame) : List (String × Nat) :=
  df.cols.map (fun c => (c.name, c.values.countP Cell.isNull))

/-- The pairwise-complete observations of two numeric series. -/
def pairObs (xs ys : List (Option ℚ)) : List (ℚ × ℚ) :=
  (xs.zip ys).filterMap (fun p => match p with
    | (some a, some b) => some (a, b)
    | _ => none)

/-- Rendering of one Pearson correlation entry from the pairwise data:
the value is sign(cov) times the square root of cov^2/(vx*vy), written
exactly in that form (the floating-point decimal formatting of pandas is
a library internal not observable by any claim). -/
def pearsonCell (xs ys : List (Option ℚ)) : String :=
  let ps := pairObs xs ys
  if ps.length = 0 then "nan"
  else
    let n : ℚ := (ps.length : ℚ)
    let mx := (ps.map (fun p => p.1)).sum / n
    let my := (ps.map (fun p => p.2)).sum / n
    let cov := (ps.map (fun p => (p.1 - mx) * (p.2 - my))).sum
    let vx := (ps.map (fun p => (p.1 - mx) ^ 2)).sum
    let vy := (ps.map (fun p => (p.2 - my) ^ 2)).sum
    if vx = 0 ∨ vy = 0 then "nan"
    else (if cov < 0 then "-" else "") ++ "sqrt(" ++ toString (cov ^ 2 / (vx * vy)) ++ ")"

/-- The correlation matrix of `df.corr(numeric_only=True)`: a square
table labeled by exactly the numeric-typed columns in their original
order. -/
structure CorrMatrix where
  labels : List String
  cells : List (List String)
deriving DecidableEq, Repr

/-- `.empty` on the correlation frame: true exactly when there are no
numeric columns (the square matrix then has zero rows and columns). -/
def CorrMatrix.empty (m : CorrMatrix) : Bool := m.labels.isEmpty

/-- `df.corr(numeric_only=True)`. -/
def DataFrame.corr (df : DataFrame) : CorrMatrix :=
  let numeric := df.cols.filter Column.isNumeric
  let series := numeric.map (fun c => c.values.map Cell.toNum?)
  ⟨numeric.map (fun c => c.name),
   series.map (fun xs => series.map (fun ys => pearsonCell xs ys))⟩

/-- `to_markdown` of the correlation frame. -/
def CorrMatrix.to_markdown (m : CorrMatrix) : String :=
  Table.to_markdown ⟨m.labels, (m.labels.zip m.cells)⟩

/-- The triple computed by `analyze_data`. -/
structure AnalysisResult where
  summary : Table
  missing_values : List (String × Nat)
  correlation_matrix : CorrMatrix
deriving DecidableEq, Repr

/-- `analyze_data(df)`: summary statistics, per-column missing counts,
numeric-only correlation matrix. Pure; never fails. -/
def analyze_data (df : DataFrame) : AnalysisResult :=
  ⟨DataFrame.describe df, missingCounts df, DataFrame.corr df⟩

/-! ## JSON values and the lenient response-field extraction -/

/-- JSON values, as returned by `response.json()`. -/
inductive JVal where
  | null
  | bool (b : Bool)
  | num (q : ℚ)
  | str (s : String)
  | arr (xs : List JVal)
  | obj (fields : List (String × JVal))

/-- Python exceptions the embedded fragments can raise. -/
inductive PyErr where
  | indexError
  | attributeError
  | typeError
  | apiError (status : Nat) (text : String)
  | transportError (msg : String)
  | retryError (last : PyErr)
  | savefigError (msg : String)

/-- First binding of a key in a JSON object (Python dicts are
duplicate-free, so first binding is the binding). -/
def jLookup (fields : List (String × JVal)) (k : String) : Option JVal :=
  match fields with
  | [] => none
  | (k2, v) :: rest => if k2 = k then some v else jLookup rest k

/-- Python `d.get(k, default)`: defaulting key lookup on a dict;
`AttributeError` when the receiver is not a dict. -/
def pyDictGet (v : JVal) (k : String) (deflt : JVal) : Except PyErr JVal :=
  match v with
  | JVal.obj fields => Except.ok ((jLookup fields k).getD deflt)
  | _ => Except.error PyErr.attributeError

/-- Python `x[0]`: `IndexError` on an empty list or string, the first
element otherwise, `TypeError` on non-subscriptable values. -/
def pyIndexZero (v : JVal) : Except PyErr JVal :=
  match v with
  | JVal.arr [] => Except.error PyErr.indexError
  | JVal.arr (x :: _) => Except.ok x
  | JVal.str s => if s.isEmpty then Except.error PyErr.indexError else Except.ok (JVal.str (s.take 1))
  | _ => Except.error PyErr.typeError

/-- Line 85 of the source:
`response.json().get("choices", [{}])[0].get("message", {}).get("content", "")`. -/
def extractContent (body : JVal) : Except PyErr JVal := do
  let choices ← pyDictGet body ("choices") (JVal.arr [JVal.obj []])
  let first ← pyIndexZero choices
  let message ← pyDictGet first ("message") (JVal.obj [])
  pyDictGet message ("content") (JVal.str (""))

/-- The body "lacks an expected field" (choices / message / content) in
the sense of the specification: the `choices` key is absent, or there is
no first completion at all, or the first completion object has no
`message` key, or its message object has no `content` key. Bodies of the
wrong shape (non-object body, non-array choices, non-object first
completion or message) have the field present-but-malformed rather than
lacking, and are outside the predicate. -/
def bodyLacksField (b : JVal) : Bool :=
  match b with
  | JVal.obj fields =>
    match jLookup fields ("choices") with
    | none => true
    | some (JVal.arr []) => true
    | some (JVal.arr (c :: _)) =>
      match c with
      | JVal.obj cf =>
        match jLookup cf ("message") with
        | none => true
        | some (JVal.obj mf) => (jLookup mf ("content")).isNone
        | some _ => false
      | _ => false
    | some _ => false
  | _ => false

/-- The `choices` key is present and bound to an empty array: the one
"lacking" shape on which the extraction indexes out of bounds. -/
def choicesEmptyList (b : JVal) : Bool :=
  match b with
  | JVal.obj fields =>
    match jLookup fields ("choices") with
    | some (JVal.arr []) => true
    | _ => false
  | _ => false

/-! ## The remote call and the tenacity retry loop -/

/-- An HTTP response: status code, parsed JSON body, raw text. -/
structure HttpResponse where
  status : Nat
  body : JVal
  text : String

/-- Outcome of one `requests.post` call: a transport-level exception or
a response. -/
inductive Outcome where
  | transportFail (msg : String)
  | response (r : HttpResponse)

/-- One execution of the inner `chat()` body: a transport error
re-raises, a 200 response goes through the lenient field extraction, and
any other status raises `Exception("API Error: ...")`. -/
def chatOnce (o : Outcome) : Except PyErr JVal :=
  match o with
  | Outcome.transportFail m => Except.error (PyErr.transportError m)
  | Outcome.response r =>
    if r.status = 200 then extractContent r.body
    else Except.error (PyErr.apiError r.status r.text)

/-- `stop_after_attempt(3)`. -/
def stopAfterAttemptN : Nat := 3

/-- `wait_fixed(2)`. -/
def waitFixedSecs : Nat := 2

/-- Boolean error test on the result of an attempt. -/
def exceptIsError : Except PyErr JVal → Bool
  | Except.ok _ => false
  | Except.error _ => true

/-- Observable trace of the retry loop: attempts made, the sleep before
each retry, and the final result (`RetryError` wrapping the last attempt
error once the attempt ceiling is reached). -/
structure RetryTrace where
  attempts : Nat
  sleeps : List Nat
  result : Except PyErr JVal

/-- The tenacity loop, made explicit: attempt `k`; on success stop; on
failure, if this was the last allowed attempt raise `RetryError`
(wrapping the attempt error), otherwise sleep the fixed delay and retry.
`remaining` is the number of attempts still allowed. -/
def retryFrom (http : Nat → Outcome) (k : Nat) : Nat → RetryTrace
  | 0 => ⟨0, [], Except.error (PyErr.retryError (PyErr.transportError ("no attempts allowed")))⟩
  | 1 =>
    match chatOnce (http k) with
    | Except.ok v => ⟨1, [], Except.ok v⟩
    | Except.error e => ⟨1, [], Except.error (PyErr.retryError e)⟩
  | n + 2 =>
    match chatOnce (http k) with
    | Except.ok v => ⟨1, [], Except.ok v⟩
    | Except.error _ =>
      let t := retryFrom http (k + 1) (n + 1)
      ⟨t.attempts + 1, waitFixedSecs :: t.sleeps, t.result⟩

/-- The decorated `chat()` call: the retry loop from attempt 1 with the
fixed attempt ceiling. `http` gives the outcome of each numbered
attempt. -/
def chatWithRetry (http : Nat → Outcome) : RetryTrace :=
  retryFrom http 1 stopAfterAttemptN

/-! ## Visualizer (`generate_visualizations`) -/

/-- Outcome of each of the two `plt.savefig` calls: the library either
writes the file or raises. -/
structure FsOracle where
  save1 : Except PyErr Unit
  save2 : Except PyErr Unit

/-- The savefig oracle of a normal run: both writes succeed. -/
def oracleOk : FsOracle := ⟨Except.ok (), Except.ok ()⟩

/-- Observable result of `generate_visualizations`: which chart blocks
were entered, which files were written, the series the histogram was
rendered from, and the exception (if any) that escaped the function. -/
structure VizResult where
  attempted1 : Bool
  written1 : Bool
  attempted2 : Bool
  written2 : Bool
  data2 : List Cell
  err : Option PyErr

/-- `df['average_rating'].dropna()`: the histogram input series. -/
def dropnaRating (df : DataFrame) : List Cell :=
  (getCol df ("average_rating")).values.filter (fun c => !(Cell.isNull c))

/-- The chart2 block (lines 53-62): entered only when a column named
exactly `average_rating` exists; renders the dropna'd series and saves
`chart2.png`. `a1`/`w1` carry the already-decided chart1 facts. -/
def vizChart2 (df : DataFrame) (o : FsOracle) (a1 w1 : Bool) : VizResult :=
  if hasCol df ("average_rating") then
    match o.save2 with
    | Except.error e => ⟨a1, w1, true, false, dropnaRating df, some e⟩
    | Except.ok _ => ⟨a1, w1, true, true, dropnaRating df, none⟩
  else ⟨a1, w1, false, false, [], none⟩

/-- `generate_visualizations(df, folder)` (lines 41-62): the chart1
block runs first, guarded by `not corr.empty`; an exception while saving
chart1 propagates out of the function immediately, so the chart2 block
is then never entered. -/
def generate_visualizations (df : DataFrame) (o : FsOracle) : VizResult :=
  if (DataFrame.corr df).empty then vizChart2 df o false false
  else
    match o.save1 with
    | Except.error e => ⟨true, false, false, false, [], some e⟩
    | Except.ok _ => vizChart2 df o true true

/-! ## Filesystem model and the Report Writer (`generate_report`) -/

/-- Flat filesystem: an association of paths to file contents. -/
def FileSys := List (String × String)

/-- Writing a file replaces any previous content at that path (mode
`"w"`). -/
def fsWrite (fs : FileSys) (p c : String) : FileSys :=
  (p, c) :: List.filter (fun q => q.1 != p) fs

/-- `os.path.exists`. -/
def fsExists (fs : FileSys) (p : String) : Bool :=
  fs.any (fun q => q.1 == p)

/-- Content of a file, when present. -/
def fsRead (fs : FileSys) (p : String) : Option String :=
  (fs.find? (fun q => q.1 == p)).map (fun q => q.2)

/-- `os.path.join(a, b)` for the POSIX separator. -/
def pathJoin (a b : String) : String :=
  if a = "" then b else if a.endsWith ("/") then a ++ b else a ++ "/" ++ b

/-- `missing_values.to_frame(name='missing_count')`: the one-column
frame the missing counts are rendered through. -/
def missingFrame (mv : List (String × Nat)) : Table :=
  ⟨[("missing_count")], mv.map (fun p => (p.1, [toString p.2]))⟩

/-- The `f.write` calls of lines 95-107, before the insights write: the
title, the dataset name, and the three tables, each under its fixed
heading. -/
def headerWrites (filename : String) (summary : Table) (mv : List (String × Nat))
    (cm : CorrMatrix) : List String :=
  ["# Automated Data Analysis Report\n\n",
   "## Dataset: `" ++ filename ++ "`\n\n",
   "### Summary Statistics\n\n",
   Table.to_markdown summary ++ "\n\n",
   "### Missing Values\n\n",
   Table.to_markdown (missingFrame mv) ++ "\n\n",
   "### Correlation Matrix\n\n",
   CorrMatrix.to_markdown cm ++ "\n\n",
   "### AI-Generated Insights\n\n"]

/-- The conditional image embeds of lines 111-114: each embed is written
exactly when the corresponding image file exists on disk at write
time. -/
def vizWrites (folder : String) (fs : FileSys) : List String :=
  (if fsExists fs (folder ++ "/chart1.png") then ["![Correlation Heatmap](chart1.png)\n\n"] else [])
  ++ (if fsExists fs (folder ++ "/chart2.png") then ["![Rating Distribution](chart2.png)\n"] else [])

/-- The complete ordered sequence of `f.write` calls of
`generate_report`. -/
def reportWrites (folder filename : String) (summary : Table) (mv : List (String × Nat))
    (cm : CorrMatrix) (insights : String) (fs : FileSys) : List String :=
  headerWrites filename summary mv cm
    ++ [insights ++ "\n\n", "### Visualizations\n\n"]
    ++ vizWrites folder fs

/-- The bytes of `README.md`: the sequential writes accumulated into the
file opened with mode `"w"`. -/
def readmeContent (folder filename : String) (summary : Table) (mv : List (String × Nat))
    (cm : CorrMatrix) (insights : String) (fs : FileSys) : String :=
  (reportWrites folder filename summary mv cm insights fs).foldl (fun acc s => acc ++ s) ""

/-- `generate_report` (lines 92-114): write the composed Markdown file
at `os.path.join(folder, "README.md")`, overwriting any previous
report. -/
def generate_report (folder filename : String) (summary : Table) (mv : List (String × Nat))
    (cm : CorrMatrix) (insights : String) (fs : FileSys) : FileSys :=
  fsWrite fs (pathJoin folder ("README.md"))
    (readmeContent folder filename summary mv cm insights fs)

/-! ## Insight Requester (`get_openai_response`) and the entry point -/

/-- The diagnostic printed when the credential is absent. -/
def keyMsg : String := "Error: OPENAI_API_KEY not set."

/-- How `get_openai_response` finishes: `sys.exit(code)` on a missing
credential, an exception escaping the retry loop, or the extracted
narrative value. -/
inductive InsightOutcome where
  | fatal (code : Nat)
  | raised (e : PyErr)
  | text (v : JVal)

/-- Observable run of `get_openai_response`: printed lines, HTTP calls
made, sleeps taken, and the outcome. -/
structure InsightRun where
  printed : List String
  calls : Nat
  sleeps : List Nat
  outcome : InsightOutcome

/-- `get_openai_response(prompt)` (lines 65-89): a missing or empty
credential prints the diagnostic and exits with status 1 before any
network call; otherwise the decorated `chat()` runs with bounded
retry. -/
def get_openai_response (apiKey : Option String) (http : Nat → Outcome) : InsightRun :=
  match apiKey with
  | none => ⟨[keyMsg], 0, [], InsightOutcome.fatal 1⟩
  | some k =>
    if k = "" then ⟨[keyMsg], 0, [], InsightOutcome.fatal 1⟩
    else
      let t := chatWithRetry http
      match t.result with
      | Except.ok v => ⟨[], t.attempts, t.sleeps, InsightOutcome.text v⟩
      | Except.error e => ⟨[], t.attempts, t.sleeps, InsightOutcome.raised e⟩

/-- How the process terminates: clean exit 0, `sys.exit(code)`, or an
uncaught exception (the interpreter then exits non-zero with a stack
trace). -/
inductive ExitStatus where
  | success
  | sysExit (code : Nat)
  | uncaught (e : PyErr)

/-- The process exit status is non-zero. -/
def ExitStatus.isNonzero : ExitStatus → Bool
  | ExitStatus.success => false
  | ExitStatus.sysExit c => c != 0
  | ExitStatus.uncaught _ => true

/-- The three file artifacts a run can write. -/
inductive ArtifactKind where
  | chart1Png
  | chart2Png
  | readmeMd
deriving DecidableEq, BEq, Repr

/-- One file write performed by the run: which write site fired, at
which path, with which content. -/
structure WriteEvent where
  kind : ArtifactKind
  path : String
  content : String

/-- The file writes of the visualization stage, in order. -/
def chartEvents (v : VizResult) (folder : String) : List WriteEvent :=
  (if v.written1 then [⟨ArtifactKind.chart1Png, folder ++ "/chart1.png", "PNG1"⟩] else [])
  ++ (if v.written2 then [⟨ArtifactKind.chart2Png, folder ++ "/chart2.png", "PNG2"⟩] else [])

/-- Apply a list of write events to the filesystem. -/
def applyEvents (fs : FileSys) (evs : List WriteEvent) : FileSys :=
  evs.foldl (fun a ev => fsWrite a ev.path ev.content) fs

/-- `os.path.basename`. -/
def basename (p : String) : String :=
  (p.splitOn ("/")).getLastD p

/-- The root part of `os.path.splitext`: strip the extension after the
last dot, ignoring the leading dots of the name. -/
def splitextRoot (s : String) : String :=
  let cs := s.toList
  let lead := (cs.takeWhile (fun c => c == '.')).length
  let dotAt := (List.range cs.length).filter
    (fun i => (cs.getD i (' ') == '.') && decide (lead ≤ i))
  match dotAt.getLast? with
  | none => s
  | some i => String.mk (cs.take i)

/-- The whole outside world one run consumes: the command line, the
credential environment variable, the CSV-load outcome, the per-attempt
HTTP outcomes, the savefig outcomes, and the pre-existing filesystem. -/
structure World where
  argv : List String
  apiKey : Option String
  loadResult : Except String DataFrame
  http : Nat → Outcome
  fsOracle : FsOracle
  priorFs : FileSys

/-- Everything one run observably does. -/
structure RunResult where
  exit : ExitStatus
  stdout : List String
  httpCalls : Nat
  folders : List String
  writes : List WriteEvent
  fs : FileSys

/-- The row/column message printed by `load_data` on success. -/
def loadedMsg (df : DataFrame) : String :=
  "Loaded dataset with " ++ toString (DataFrame.nrows df) ++ " rows and "
    ++ toString (DataFrame.ncols df) ++ " columns."

/-- The usage message of `main`. -/
def usageMsg : String := "Usage: uv run autolysis.py <dataset.csv>"

/-- The completion message of `main`. -/
def doneMsg (folder : String) : String :=
  "Analysis complete. Output saved in `" ++ folder ++ "/README.md` and PNG files."

/-- The tail of `main` after the insight call: report generation. A
non-string extracted content value would make `insights + "\n\n"` raise
`TypeError` after the header writes, leaving a truncated report. -/
def runReport (filename folder : String) (ar : AnalysisResult) (msgs : List String)
    (calls : Nat) (evs : List WriteEvent) (fs1 : FileSys) (v : JVal) : RunResult :=
  match v with
  | JVal.str insights =>
    let content := readmeContent folder filename ar.summary ar.missing_values
      ar.correlation_matrix insights fs1
    let rp := pathJoin folder ("README.md")
    ⟨ExitStatus.success, msgs ++ [doneMsg folder], calls, [folder],
      evs ++ [⟨ArtifactKind.readmeMd, rp, content⟩],
      generate_report folder filename ar.summary ar.missing_values
        ar.correlation_matrix insights fs1⟩
  | _ =>
    let rp := pathJoin folder ("README.md")
    let truncated := String.join (headerWrites filename ar.summary ar.missing_values
      ar.correlation_matrix)
    ⟨ExitStatus.uncaught PyErr.typeError, msgs, calls, [folder],
      evs ++ [⟨ArtifactKind.readmeMd, rp, truncated⟩], fsWrite fs1 rp truncated⟩

/-- The insight stage of `main`: the credential check and retried remote
call; a `fatal` outcome is `sys.exit(1)`, a `raised` outcome is the
retry exception propagating uncaught out of `main`. -/
def runInsight (w : World) (filename folder : String) (ar : AnalysisResult)
    (msgs : List String) (evs : List WriteEvent) (fs1 : FileSys) : RunResult :=
  let ir := get_openai_response w.apiKey w.http
  match ir.outcome with
  | InsightOutcome.fatal c => ⟨ExitStatus.sysExit c, msgs ++ ir.printed, ir.calls, [folder], evs, fs1⟩
  | InsightOutcome.raised e => ⟨ExitStatus.uncaught e, msgs ++ ir.printed, ir.calls, [folder], evs, fs1⟩
  | InsightOutcome.text v => runReport filename folder ar (msgs ++ ir.printed) ir.calls evs fs1 v

/-- `main` after a successful argument check: load (exit 1 on failure),
analyze, create the output folder, visualize (an exception propagates
uncaught), then the insight and report stages. -/
def runLoaded (w : World) (filename : String) : RunResult :=
  match w.loadResult with
  | Except.error msg =>
    ⟨ExitStatus.sysExit 1, ["Error loading data: " ++ msg], 0, [], [], w.priorFs⟩
  | Except.ok df =>
    let msgs := [loadedMsg df]
    let ar := analyze_data df
    let folder := splitextRoot (basename filename)
    let v := generate_visualizations df w.fsOracle
    let evs := chartEvents v folder
    let fs1 := applyEvents w.priorFs evs
    match v.err with
    | some e => ⟨ExitStatus.uncaught e, msgs, 0, [folder], evs, fs1⟩
    | none => runInsight w filename folder ar msgs evs fs1

namespace Autolysis

/-- `main` (lines 117-144): usage check, then the pipeline. -/
def main (w : World) : RunResult :=
  match w.argv with
  | [_, filename] => runLoaded w filename
  | _ => ⟨ExitStatus.sysExit 1, [usageMsg], 0, [], [], w.priorFs⟩

end Autolysis

/-! ## Shared helper lemmas -/

/-- If every one of the first three attempts fails, the retry loop makes
exactly 3 attempts, sleeps twice, and raises `RetryError` wrapping the
last attempt's exception. -/
theorem chatRetryAllFail (http : Nat → Outcome)
    (hf : ∀ k, 1 ≤ k → k ≤ 3 → exceptIsError (chatOnce (http k)) = true) :
    ∃ e, chatWithRetry http
      = ⟨3, [waitFixedSecs, waitFixedSecs], Except.error (PyErr.retryError e)⟩ := by
  have h1 := hf 1 (by decide) (by decide)
  have h2 := hf 2 (by decide) (by decide)
  have h3 := hf 3 (by decide) (by decide)
  rcases hc1 : chatOnce (http 1) with e1 | v1
  · rcases hc2 : chatOnce (http 2) with e2 | v2
    · rcases hc3 : chatOnce (http 3) with e3 | v3
      · exact ⟨e3, by simp [chatWithRetry, stopAfterAttemptN, retryFrom, hc1, hc2, hc3]⟩
      · rw [hc3] at h3; simp [exceptIsError] at h3
    · rw [hc2] at h2; simp [exceptIsError] at h2
  · rw [hc1] at h1; simp [exceptIsError] at h1

/-- Facts about the visualization stage when both savefig calls
succeed: no exception escapes, chart1 is attempted and written exactly
when the correlation matrix is nonempty, and chart2 exactly when the
`average_rating` column exists. -/
theorem vizOracleOkFacts (df : DataFrame) :
    ((generate_visualizations df oracleOk).err = none)
    ∧ ((generate_visualizations df oracleOk).attempted1 = !(DataFrame.corr df).empty)
    ∧ ((generate_visualizations df oracleOk).written1 = !(DataFrame.corr df).empty)
    ∧ ((generate_visualizations df oracleOk).attempted2 = hasCol df ("average_rating"))
    ∧ ((generate_visualizations df oracleOk).written2 = hasCol df ("average_rating")) := by
  by_cases hc : (DataFrame.corr df).empty
  <;> by_cases hr : hasCol df ("average_rating")
  <;> simp [generate_visualizations, vizChart2, oracleOk, hc, hr]

/-- Some chart1 event is among the visualization writes exactly when
chart1 was written. -/
theorem chartEventsAnyChart1 (v : VizResult) (folder : String) :
    ((chartEvents v folder).any (fun ev => ev.kind == ArtifactKind.chart1Png)) = v.written1 := by
  by_cases h1 : v.written1 <;> by_cases h2 : v.written2
  <;> simp [chartEvents, h1, h2] <;> decide

/-- Some chart2 event is among the visualization writes exactly when
chart2 was written. -/
theorem chartEventsAnyChart2 (v : VizResult) (folder : String) :
    ((chartEvents v folder).any (fun ev => ev.kind == ArtifactKind.chart2Png)) = v.written2 := by
  by_cases h1 : v.written1 <;> by_cases h2 : v.written2
  <;> simp [chartEvents, h1, h2] <;> decide

/-- The visualization stage never writes the report file. -/
theorem chartEventsNoReadme (v : VizResult) (folder : String) :
    ((chartEvents v folder).all (fun ev => ev.kind != ArtifactKind.readmeMd)) = true := by
  by_cases h1 : v.written1 <;> by_cases h2 : v.written2
  <;> simp [chartEvents, h1, h2] <;> decide

/-- When all three remote attempts fail, every execution path of `main`
ends with a non-zero exit status and no write event for `README.md`. -/
theorem mainAllFailFacts (w : World)
    (hf : ∀ k, 1 ≤ k → k ≤ 3 → exceptIsError (chatOnce (w.http k)) = true) :
    ((Autolysis.main w).exit.isNonzero = true)
    ∧ ((Autolysis.main w).writes.all (fun ev => ev.kind != ArtifactKind.readmeMd) = true) := by
  obtain ⟨e3, hres⟩ := chatRetryAllFail w.http hf
  rcases w with ⟨argv, key, load, http, orc, pfs⟩
  simp only at hres
  match argv with
  | [] => simp [Autolysis.main, ExitStatus.isNonzero]
  | [a] => simp [Autolysis.main, ExitStatus.isNonzero]
  | a :: b :: c :: rest => simp [Autolysis.main, ExitStatus.isNonzero]
  | [a, fn] =>
    simp only [Autolysis.main]
    rcases load with msg | df
    · simp [runLoaded, ExitStatus.isNonzero]
    · simp only [runLoaded]
      rcases hverr : (generate_visualizations df orc).err with _ | e
      · simp only [hverr]
        simp only [runInsight, get_openai_response]
        rcases key with _ | k
        · simp [ExitStatus.isNonzero, chartEventsNoReadme]
        · by_cases hk : k = ""
          · simp [hk, ExitStatus.isNonzero, chartEventsNoReadme]
          · simp only [hk, if_neg hk, hres]
            simp [ExitStatus.isNonzero, chartEventsNoReadme]
      · simp only [hverr]
        simp [ExitStatus.isNonzero, chartEventsNoReadme]

/-- Exact outcome of `main` when the run reaches the credential check
and the credential is absent: exit 1 after the load message and the
diagnostic, zero HTTP calls, the folder created, and exactly the chart
writes on disk. -/
theorem mainNoKeyEq (w : World) (a fn : String) (df : DataFrame)
    (hargv : w.argv = [a, fn]) (hload : w.loadResult = Except.ok df)
    (horc : w.fsOracle = oracleOk) (hkey : w.apiKey = none) :
    Autolysis.main w =
      ⟨ExitStatus.sysExit 1, [loadedMsg df, keyMsg], 0, [splitextRoot (basename fn)],
       chartEvents (generate_visualizations df oracleOk) (splitextRoot (basename fn)),
       applyEvents w.priorFs
         (chartEvents (generate_visualizations df oracleOk) (splitextRoot (basename fn)))⟩ := by
  rcases w with ⟨argv, key, load, http, orc, pfs⟩
  simp only at hargv hload horc hkey
  subst hargv hload horc hkey
  simp only [Autolysis.main, runLoaded]
  have herr : (generate_visualizations df oracleOk).err = none := (vizOracleOkFacts df).1
  simp only [herr]
  simp [runInsight, get_openai_response]

/-- Reading back a freshly written file yields the written content. -/
theorem fsReadWriteSame (fs : FileSys) (p c : String) :
    fsRead (fsWrite fs p c) p = some c := by
  simp [fsRead, fsWrite, List.find?]

/-- The lenient extraction over a body lacking an expected field:
missing keys default level by level to empty structures ending in the
empty string, except the empty `choices` list, which indexes out of
bounds. -/
theorem extractLenient (b : JVal) (h : bodyLacksField b = true) :
    extractContent b
      = (if choicesEmptyList b then Except.error PyErr.indexError
         else Except.ok (JVal.str (""))) := by
  cases b with
  | obj fields =>
    rcases hch : jLookup fields ("choices") with _ | v
    · simp [extractContent, pyDictGet, hch, pyIndexZero, choicesEmptyList, jLookup,
        Bind.bind, Except.bind]
    · cases v with
      | arr xs =>
        cases xs with
        | nil =>
          simp [extractContent, pyDictGet, hch, pyIndexZero, choicesEmptyList, jLookup,
            Bind.bind, Except.bind]
        | cons c rest =>
          cases c with
          | obj cf =>
            rcases hm : jLookup cf ("message") with _ | m
            · simp [extractContent, pyDictGet, hch, hm, pyIndexZero, choicesEmptyList, jLookup,
                Bind.bind, Except.bind]
            · cases m with
              | obj mf =>
                have hc : jLookup mf ("content") = none := by
                  have hx := h
                  simp [bodyLacksField, hch, hm] at hx
                  exact hx
                simp [extractContent, pyDictGet, hch, hm, hc, pyIndexZero, choicesEmptyList,
                  jLookup, Bind.bind, Except.bind]
              | null => simp [bodyLacksField, hch, hm] at h
              | bool b2 => simp [bodyLacksField, hch, hm] at h
              | num q => simp [bodyLacksField, hch, hm] at h
              | str s => simp [bodyLacksField, hch, hm] at h
              | arr ys => simp [bodyLacksField, hch, hm] at h
          | null => simp [bodyLacksField, hch] at h
          | bool b2 => simp [bodyLacksField, hch] at h
          | num q => simp [bodyLacksField, hch] at h
          | str s => simp [bodyLacksField, hch] at h
          | arr ys => simp [bodyLacksField, hch] at h
      | null => simp [bodyLacksField, hch] at h
      | bool b2 => simp [bodyLacksField, hch] at h
      | num q => simp [bodyLacksField, hch] at h
      | str s => simp [bodyLacksField, hch] at h
      | obj fs2 => simp [bodyLacksField, hch] at h
  | null => simp [bodyLacksField] at h
  | bool b2 => simp [bodyLacksField] at h
  | num q => simp [bodyLacksField] at h
  | str s => simp [bodyLacksField] at h
  | arr xs => simp [bodyLacksField] at h

/-! ## Sample data for witnesses and counterexamples -/

/-- A dataset with a numeric column and an `average_rating` column (one
missing value). -/
def dfBoth : DataFrame :=
  ⟨[⟨("x"), [Cell.num 1, Cell.num 2]⟩, ⟨("average_rating"), [Cell.num 3, Cell.null]⟩]⟩

/-- A dataset with no numeric column. -/
def dfNoNum : DataFrame := ⟨[⟨("name"), [Cell.str ("a"), Cell.str ("b")]⟩]⟩

/-- A savefig oracle whose chart1 write raises. -/
def failSave1 : FsOracle := ⟨Except.error (PyErr.savefigError ("disk full")), Except.ok ()⟩

/-- A well-formed chat-completion body. -/
def okBody : JVal :=
  JVal.obj [(("choices"),
    JVal.arr [JVal.obj [(("message"), JVal.obj [(("content"), JVal.str ("A story."))])]])]

/-- A 200 body whose `choices` field is present but empty. -/
def emptyChoicesBody : JVal := JVal.obj [(("choices"), JVal.arr [])]

/-- HTTP oracle that always answers 200 with the well-formed body. -/
def httpGood : Nat → Outcome := fun _ => Outcome.response ⟨200, okBody, ("")⟩

/-- HTTP oracle that always fails at the transport level. -/
def httpDown : Nat → Outcome := fun _ => Outcome.transportFail ("connection refused")

/-- World with the credential unset. -/
def worldNoKey : World :=
  ⟨[("autolysis.py"), ("data.csv")], none, Except.ok dfBoth, httpGood, oracleOk, []⟩

/-- World with a credential but an unreachable endpoint. -/
def worldAllFail : World :=
  ⟨[("autolysis.py"), ("data.csv")], some ("sk-test"), Except.ok dfBoth, httpDown, oracleOk, []⟩

/-- A prior filesystem already holding a chart1 image for folder
`data`. -/
def sampleFs : FileSys := [(("data/chart1.png"), ("PNG1"))]

/-! ## Claims -/

/-- C1: the remote chat-completion call is retried on any failed attempt
(non-2xx response or transport error both make `chat()` raise) for at
most 3 total attempts with a fixed delay of 2 time units before each
retry, and once the 3 attempts are exhausted the wrapped error
propagates uncaught, terminating the whole run with a non-zero
status. -/
theorem retry_three_attempts_fixed_wait_then_fatal (w : World) :
    ((chatWithRetry w.http).attempts ≤ 3)
    ∧ ((chatWithRetry w.http).sleeps
        = List.replicate ((chatWithRetry w.http).attempts - 1) 2)
    ∧ (exceptIsError (chatOnce (w.http 1)) = false →
        chatWithRetry w.http = ⟨1, [], chatOnce (w.http 1)⟩)
    ∧ (∀ e1, chatOnce (w.http 1) = Except.error e1 →
        exceptIsError (chatOnce (w.http 2)) = false →
        chatWithRetry w.http = ⟨2, [2], chatOnce (w.http 2)⟩)
    ∧ (∀ e1 e2 e3, chatOnce (w.http 1) = Except.error e1 →
        chatOnce (w.http 2) = Except.error e2 →
        chatOnce (w.http 3) = Except.error e3 →
        chatWithRetry w.http = ⟨3, [2, 2], Except.error (PyErr.retryError e3)⟩)
    ∧ ((∀ k, 1 ≤ k → k ≤ 3 → exceptIsError (chatOnce (w.http k)) = true) →
        (Autolysis.main w).exit.isNonzero = true) := by
  rcases hc1 : chatOnce (w.http 1) with e1 | v1
  · rcases hc2 : chatOnce (w.http 2) with e2 | v2
    · rcases hc3 : chatOnce (w.http 3) with e3 | v3
      · have heq : chatWithRetry w.http = ⟨3, [2, 2], Except.error (PyErr.retryError e3)⟩ := by
          simp [chatWithRetry, stopAfterAttemptN, retryFrom, waitFixedSecs, hc1, hc2, hc3]
        refine ⟨by rw [heq], by rw [heq]; rfl, ?_, ?_, ?_,
          fun hf => (mainAllFailFacts w hf).1⟩
        · intro hok; simp [exceptIsError] at hok
        · intro e1x hx hok; simp [exceptIsError] at hok
        · intro e1x e2x e3x hx1 hx2 hx3
          injection hx3 with hx3e
          subst hx3e
          exact heq
      · have heq : chatWithRetry w.http = ⟨3, [2, 2], Except.ok v3⟩ := by
          simp [chatWithRetry, stopAfterAttemptN, retryFrom, waitFixedSecs, hc1, hc2, hc3]
        refine ⟨by rw [heq], by rw [heq]; rfl, ?_, ?_, ?_,
          fun hf => (mainAllFailFacts w hf).1⟩
        · intro hok; simp [exceptIsError] at hok
        · intro e1x hx hok; simp [exceptIsError] at hok
        · intro e1x e2x e3x hx1 hx2 hx3; simp at hx3
    · have heq : chatWithRetry w.http = ⟨2, [2], Except.ok v2⟩ := by
        simp [chatWithRetry, stopAfterAttemptN, retryFrom, waitFixedSecs, hc1, hc2]
      refine ⟨by rw [heq]; show 2 ≤ 3; decide, by rw [heq]; rfl, ?_, ?_, ?_,
        fun hf => (mainAllFailFacts w hf).1⟩
      · intro hok; simp [exceptIsError] at hok
      · intro e1x hx hok; exact heq
      · intro e1x e2x e3x hx1 hx2 hx3; simp at hx2
  · have heq : chatWithRetry w.http = ⟨1, [], Except.ok v1⟩ := by
      simp [chatWithRetry, stopAfterAttemptN, retryFrom, hc1]
    refine ⟨by rw [heq]; show 1 ≤ 3; decide, by rw [heq]; rfl, ?_, ?_, ?_,
      fun hf => (mainAllFailFacts w hf).1⟩
    · intro hok; exact heq
    · intro e1x hx hok; simp at hx
    · intro e1x e2x e3x hx1 hx2 hx3; simp at hx1

/-- C1 witness: with an unreachable endpoint, exactly 3 attempts, two
sleeps of 2, a `RetryError`, and a non-zero process exit. -/
theorem retry_three_attempts_fixed_wait_then_fatal_witness :
    (chatWithRetry worldAllFail.http
      = ⟨3, [2, 2], Except.error (PyErr.retryError (PyErr.transportError ("connection refused")))⟩)
    ∧ ((Autolysis.main worldAllFail).exit.isNonzero = true) := by
  have h := retry_three_attempts_fixed_wait_then_fatal worldAllFail
  exact ⟨h.2.2.2.2.1 _ _ _ rfl rfl rfl, h.2.2.2.2.2 (fun k h1 h2 => rfl)⟩

/-- C2 counterexample: the 200 body `{"choices": []}` lacks the
`message` and `content` fields, yet the extraction raises `IndexError`
instead of returning empty text. -/
theorem lenient_parse_counterexample :
    (bodyLacksField emptyChoicesBody = true)
    ∧ (chatOnce (Outcome.response ⟨200, emptyChoicesBody, ("")⟩)
        = Except.error PyErr.indexError)
    ∧ (chatOnce (Outcome.response ⟨200, emptyChoicesBody, ("")⟩)
        ≠ Except.ok (JVal.str (""))) := by
  refine ⟨rfl, rfl, ?_⟩
  intro hcontr
  rw [show chatOnce (Outcome.response ⟨200, emptyChoicesBody, ("")⟩)
      = Except.error PyErr.indexError from rfl] at hcontr
  exact Except.noConfusion hcontr

/-- C2 (amended): a 200 response whose body lacks an expected field as a
missing key (no `choices` key, or a first choice without `message`, or a
message without `content`) yields empty narrative text; the one
remaining lacking shape, `choices` present but an empty list, raises
`IndexError` instead. -/
theorem lenient_parse_missing_keys (body : JVal) (t : String)
    (h : bodyLacksField body = true) :
    chatOnce (Outcome.response ⟨200, body, t⟩)
      = (if choicesEmptyList body then Except.error PyErr.indexError
         else Except.ok (JVal.str (""))) := by
  have hx := extractLenient body h
  simpa [chatOnce] using hx

/-- C2 witness: a 200 body with no `choices` key at all extracts to the
empty string. -/
theorem lenient_parse_missing_keys_witness :
    chatOnce (Outcome.response ⟨200, JVal.obj [], ("")⟩) = Except.ok (JVal.str ("")) := by
  have h := lenient_parse_missing_keys (JVal.obj []) ("") (by rfl)
  simpa [choicesEmptyList, jLookup] using h

/-- C3 counterexample: on a dataset with both a numeric column and an
`average_rating` column, a savefig failure in the chart1 block prevents
the chart2 block from ever being attempted. -/
theorem viz_independence_counterexample :
    ((generate_visualizations dfBoth failSave1).attempted1 = true)
    ∧ (hasCol dfBoth ("average_rating") = true)
    ∧ ((generate_visualizations dfBoth failSave1).attempted2 = false)
    ∧ ((generate_visualizations dfBoth failSave1).written2 = false) :=
  ⟨rfl, rfl, rfl, rfl⟩

/-- C3 (amended): the dependence is one-directional. Chart1's attempted
and written status never depends on chart2's savefig outcome (chart1
runs first), but a failure while producing chart1 propagates out of the
Visualizer and prevents chart2 from being attempted. -/
theorem viz_chart_order_dependence (df : DataFrame) (s1 s2 t2 : Except PyErr Unit) :
    ((generate_visualizations df ⟨s1, s2⟩).attempted1
        = (generate_visualizations df ⟨s1, t2⟩).attempted1)
    ∧ ((generate_visualizations df ⟨s1, s2⟩).written1
        = (generate_visualizations df ⟨s1, t2⟩).written1)
    ∧ (∀ e, s1 = Except.error e →
        (generate_visualizations df ⟨s1, s2⟩).attempted1 = true →
        (generate_visualizations df ⟨s1, s2⟩).attempted2 = false) := by
  by_cases hc : (DataFrame.corr df).empty
  <;> by_cases hr : hasCol df ("average_rating")
  <;> rcases s1 with e1 | u1
  <;> rcases s2 with e2 | u2
  <;> rcases t2 with e3 | u3
  <;> simp [generate_visualizations, vizChart2, hc, hr]

/-- C3 witness: the one-directional dependence at the counterexample
dataset and oracle. -/
theorem viz_chart_order_dependence_witness :
    (generate_visualizations dfBoth
      ⟨Except.error (PyErr.savefigError ("disk full")), Except.ok ()⟩).attempted2 = false := by
  have h := viz_chart_order_dependence dfBoth
    (Except.error (PyErr.savefigError ("disk full"))) (Except.ok ()) (Except.ok ())
  exact h.2.2 _ rfl rfl

/-- C4: with the pipeline reaching the credential check (valid argument
count, successful load, no savefig failure) and the credential variable
unset, the program prints the diagnostic and exits with status 1 having
made zero HTTP calls. -/
theorem missing_key_exits_before_http (w : World) (a fn : String) (df : DataFrame)
    (hargv : w.argv = [a, fn]) (hload : w.loadResult = Except.ok df)
    (horc : w.fsOracle = oracleOk) (hkey : w.apiKey = none) :
    ((Autolysis.main w).exit = ExitStatus.sysExit 1)
    ∧ ((Autolysis.main w).httpCalls = 0)
    ∧ (("Error: OPENAI_API_KEY not set.") ∈ (Autolysis.main w).stdout) := by
  rw [mainNoKeyEq w a fn df hargv hload horc hkey]
  exact ⟨rfl, rfl, by simp [keyMsg]⟩

/-- C4 witness: the concrete credential-less world exits 1 with zero
HTTP calls after printing the diagnostic. -/
theorem missing_key_exits_before_http_witness :
    ((Autolysis.main worldNoKey).exit = ExitStatus.sysExit 1)
    ∧ ((Autolysis.main worldNoKey).httpCalls = 0)
    ∧ (("Error: OPENAI_API_KEY not set.") ∈ (Autolysis.main worldNoKey).stdout) :=
  missing_key_exits_before_http worldNoKey ("autolysis.py") ("data.csv") dfBoth rfl rfl rfl rfl

/-- C5: when every one of the 3 remote attempts fails, the process ends
with a non-zero status and no write event for `README.md` occurs — the
report stage is never reached. -/
theorem retry_exhaustion_writes_no_report (w : World)
    (hf : ∀ k, 1 ≤ k → k ≤ 3 → exceptIsError (chatOnce (w.http k)) = true) :
    ((Autolysis.main w).exit.isNonzero = true)
    ∧ ((Autolysis.main w).writes.all (fun ev => ev.kind != ArtifactKind.readmeMd) = true) :=
  mainAllFailFacts w hf

/-- C5 witness: the concrete all-attempts-fail world aborts without
writing a report. -/
theorem retry_exhaustion_writes_no_report_witness :
    ((Autolysis.main worldAllFail).exit.isNonzero = true)
    ∧ ((Autolysis.main worldAllFail).writes.all
        (fun ev => ev.kind != ArtifactKind.readmeMd) = true) :=
  retry_exhaustion_writes_no_report worldAllFail (fun _ _ _ => rfl)

/-- C6: a dataset with zero numeric columns yields an empty correlation
matrix from the Analyzer (no error), and the Visualizer neither attempts
nor writes chart1, under any savefig oracle. -/
theorem no_numeric_columns_empty_corr_no_chart1 (df : DataFrame) (o : FsOracle)
    (h : df.cols.filter Column.isNumeric = []) :
    ((analyze_data df).correlation_matrix.labels = [])
    ∧ ((analyze_data df).correlation_matrix.empty = true)
    ∧ ((generate_visualizations df o).attempted1 = false)
    ∧ ((generate_visualizations df o).written1 = false) := by
  have hl : (DataFrame.corr df).labels = [] := by simp [DataFrame.corr, h]
  have he : (DataFrame.corr df).empty = true := by simp [CorrMatrix.empty, hl]
  refine ⟨by simp [analyze_data, hl], by simp [analyze_data, he], ?_, ?_⟩
  <;> by_cases hr : hasCol df ("average_rating")
  <;> rcases o with ⟨s1, s2⟩
  <;> rcases s2 with e2 | u2
  <;> simp [generate_visualizations, vizChart2, he, hr]

/-- C6 witness: the all-text dataset has an empty correlation matrix and
no chart1. -/
theorem no_numeric_columns_empty_corr_no_chart1_witness :
    ((analyze_data dfNoNum).correlation_matrix.empty = true)
    ∧ ((generate_visualizations dfNoNum oracleOk).attempted1 = false) := by
  have h := no_numeric_columns_empty_corr_no_chart1 dfNoNum oracleOk rfl
  exact ⟨h.2.1, h.2.2.1⟩

/-- C7: in a run whose savefig calls succeed, chart2 is attempted if and
only if a column named exactly `average_rating` exists; when attempted
it renders the column with missing values dropped; and whenever the
column is absent, chart2 is neither attempted nor written, under any
savefig oracle. -/
theorem chart2_iff_average_rating_column (df : DataFrame) :
    ((generate_visualizations df oracleOk).attempted2 = hasCol df ("average_rating"))
    ∧ ((generate_visualizations df oracleOk).attempted2 = true →
        (generate_visualizations df oracleOk).data2
          = (getCol df ("average_rating")).values.filter (fun c => !(Cell.isNull c)))
    ∧ (∀ o : FsOracle, hasCol df ("average_rating") = false →
        ((generate_visualizations df o).attempted2 = false
          ∧ (generate_visualizations df o).written2 = false)) := by
  refine ⟨(vizOracleOkFacts df).2.2.2.1, ?_, ?_⟩
  · intro hA
    by_cases hc : (DataFrame.corr df).empty
    <;> by_cases hr : hasCol df ("average_rating")
    <;> simp [generate_visualizations, vizChart2, oracleOk, hc, hr, dropnaRating] at hA ⊢
  · intro o hr
    rcases o with ⟨s1, s2⟩
    by_cases hc : (DataFrame.corr df).empty
    <;> rcases s1 with e1 | u1
    <;> simp [generate_visualizations, vizChart2, hc, hr]

/-- C7 witness: on the sample dataset the histogram is attempted and its
input is the rating column with the missing value dropped. -/
theorem chart2_iff_average_rating_column_witness :
    ((generate_visualizations dfBoth oracleOk).attempted2 = true)
    ∧ ((generate_visualizations dfBoth oracleOk).data2 = [Cell.num 3]) := by
  have h := chart2_iff_average_rating_column dfBoth
  refine ⟨?_, ?_⟩
  · rw [h.1]; rfl
  · rw [h.2.1 (by rw [h.1]; rfl)]; rfl

/-- C8: the report file content is exactly, in fixed order: title,
dataset name, summary-statistics table, missing-values table,
correlation-matrix table, insights text, and then the chart1/chart2
embeds; each embed is written if and only if the corresponding image
file exists on disk at write time. -/
theorem report_fixed_layout (folder filename : String) (s : Table)
    (mv : List (String × Nat)) (cm : CorrMatrix) (ins : String) (fs : FileSys) :
    (readmeContent folder filename s mv cm ins fs
      = "# Automated Data Analysis Report\n\n"
        ++ ("## Dataset: `" ++ filename ++ "`\n\n")
        ++ "### Summary Statistics\n\n" ++ (Table.to_markdown s ++ "\n\n")
        ++ "### Missing Values\n\n" ++ (Table.to_markdown (missingFrame mv) ++ "\n\n")
        ++ "### Correlation Matrix\n\n" ++ (CorrMatrix.to_markdown cm ++ "\n\n")
        ++ "### AI-Generated Insights\n\n" ++ (ins ++ "\n\n")
        ++ "### Visualizations\n\n"
        ++ (if fsExists fs (folder ++ "/chart1.png") then "![Correlation Heatmap](chart1.png)\n\n" else "")
        ++ (if fsExists fs (folder ++ "/chart2.png") then "![Rating Distribution](chart2.png)\n" else ""))
    ∧ ((("![Correlation Heatmap](chart1.png)\n\n") ∈ vizWrites folder fs)
        ↔ fsExists fs (folder ++ "/chart1.png") = true)
    ∧ ((("![Rating Distribution](chart2.png)\n") ∈ vizWrites folder fs)
        ↔ fsExists fs (folder ++ "/chart2.png") = true) := by
  refine ⟨?_, ?_, ?_⟩
  <;> by_cases h1 : fsExists fs (folder ++ "/chart1.png")
  <;> by_cases h2 : fsExists fs (folder ++ "/chart2.png")
  <;> simp [readmeContent, reportWrites, headerWrites, vizWrites, h1, h2, List.foldl,
    String.append_assoc, String.append_empty, String.empty_append]

/-- C8 witness: with a chart1 file on disk and no chart2 file, exactly
the chart1 embed is emitted. -/
theorem report_fixed_layout_witness :
    (("![Correlation Heatmap](chart1.png)\n\n") ∈ vizWrites ("data") sampleFs)
    ∧ (¬ (("![Rating Distribution](chart2.png)\n") ∈ vizWrites ("data") sampleFs)) := by
  have h := report_fixed_layout ("data") ("data.csv") ⟨[], []⟩ [] ⟨[], []⟩ ("story") sampleFs
  refine ⟨h.2.1.mpr rfl, fun hmem => ?_⟩
  have := h.2.2.mp hmem
  exact absurd this (by decide)

/-- C9: report generation is deterministic and idempotent — for
identical inputs and identical chart-file existence on disk, the bytes
written to `README.md` are identical, and the write overwrites whatever
report content was previously at that path. -/
theorem report_deterministic_overwrite (folder filename : String) (s : Table)
    (mv : List (String × Nat)) (cm : CorrMatrix) (ins : String) (fs1 fs2 : FileSys)
    (h1 : fsExists fs1 (folder ++ "/chart1.png") = fsExists fs2 (folder ++ "/chart1.png"))
    (h2 : fsExists fs1 (folder ++ "/chart2.png") = fsExists fs2 (folder ++ "/chart2.png")) :
    (fsRead (generate_report folder filename s mv cm ins fs1) (pathJoin folder ("README.md"))
      = fsRead (generate_report folder filename s mv cm ins fs2) (pathJoin folder ("README.md")))
    ∧ (fsRead (generate_report folder filename s mv cm ins fs1) (pathJoin folder ("README.md"))
      = some (readmeContent folder filename s mv cm ins fs1)) := by
  have hc : readmeContent folder filename s mv cm ins fs1
      = readmeContent folder filename s mv cm ins fs2 := by
    simp [readmeContent, reportWrites, vizWrites, h1, h2]
  refine ⟨?_, ?_⟩
  · simp [generate_report, fsReadWriteSame, hc]
  · simp [generate_report, fsReadWriteSame]

/-- C9 witness: on an empty prior filesystem the written report is read
back as exactly the composed content. -/
theorem report_deterministic_overwrite_witness :
    fsRead (generate_report ("data") ("data.csv") ⟨[], []⟩ [] ⟨[], []⟩ ("story") [])
      (pathJoin ("data") ("README.md"))
      = some (readmeContent ("data") ("data.csv") ⟨[], []⟩ [] ⟨[], []⟩ ("story") []) :=
  (report_deterministic_overwrite ("data") ("data.csv") ⟨[], []⟩ [] ⟨[], []⟩ ("story")
    [] [] rfl rfl).2

/-- C10: when the credential is absent (with valid arguments, a
successful load, and savefig succeeding), the run still creates the
output folder and writes exactly the applicable chart files — chart1 iff
the correlation matrix is nonempty, chart2 iff the `average_rating`
column exists — then exits with status 1 without writing `README.md`. -/
theorem missing_key_partial_outputs (w : World) (a fn : String) (df : DataFrame)
    (hargv : w.argv = [a, fn]) (hload : w.loadResult = Except.ok df)
    (horc : w.fsOracle = oracleOk) (hkey : w.apiKey = none) :
    ((splitextRoot (basename fn)) ∈ (Autolysis.main w).folders)
    ∧ (((Autolysis.main w).writes.any (fun ev => ev.kind == ArtifactKind.chart1Png))
        = !(DataFrame.corr df).empty)
    ∧ (((Autolysis.main w).writes.any (fun ev => ev.kind == ArtifactKind.chart2Png))
        = hasCol df ("average_rating"))
    ∧ ((Autolysis.main w).exit = ExitStatus.sysExit 1)
    ∧ ((Autolysis.main w).writes.all (fun ev => ev.kind != ArtifactKind.readmeMd) = true) := by
  rw [mainNoKeyEq w a fn df hargv hload horc hkey]
  refine ⟨by simp, ?_, ?_, rfl, chartEventsNoReadme _ _⟩
  · rw [chartEventsAnyChart1]; exact (vizOracleOkFacts df).2.2.1
  · rw [chartEventsAnyChart2]; exact (vizOracleOkFacts df).2.2.2.2

/-- C10 witness: the concrete credential-less world writes both charts
(nonempty correlation matrix, rating column present) and no report. -/
theorem missing_key_partial_outputs_witness :
    (((Autolysis.main worldNoKey).writes.any (fun ev => ev.kind == ArtifactKind.chart1Png)) = true)
    ∧ (((Autolysis.main worldNoKey).writes.any (fun ev => ev.kind == ArtifactKind.chart2Png)) = true)
    ∧ (((Autolysis.main worldNoKey).writes.all (fun ev => ev.kind != ArtifactKind.readmeMd)) = true) := by
  have h := missing_key_partial_outputs worldNoKey ("autolysis.py") ("data.csv") dfBoth rfl rfl rfl rfl
  refine ⟨?_, ?_, h.2.2.2.2⟩
  · rw [h.2.1]; rfl
  · rw [h.2.2.1]; rfl
